import Mathlib

/-!
Verification of the Sphinx documentation configuration of the genogrove
docs repository (`source/conf.py`).

The configuration module is straight-line Python: a sequence of top-level
assignments of literals, except for one path expression
`os.path.abspath(os.path.join(os.path.dirname(__file__), "../doxygen/xml"))`.
We embed the POSIX path primitives (`os.path.dirname`, `os.path.join`,
`os.path.normpath`, `os.path.abspath`) faithfully from their CPython
`posixpath` implementations, working on the character list underlying a
`String`, and model module evaluation as a function of the two ambient
inputs the module reads: `__file__` and the process working directory
(consulted by `os.path.abspath` when its argument is relative).
-/

namespace GenogroveConf

/-- `os.path.isabs` for POSIX: the path starts with a slash. -/
def isAbs (p : String) : Bool :=
  p.data.head? == some '/'

/-- The `head = p[:i]` step of `posixpath.dirname`: the characters up to
and including the final slash (empty if the path has no slash). -/
def stripBase (l : List Char) : List Char :=
  (l.reverse.dropWhile (fun x => x != '/')).reverse

/-- `posixpath.dirname` on the underlying characters: everything up to
(excluding) the final slash; trailing slashes are stripped unless the
result consists only of slashes. -/
def dirnameAux (l : List Char) : List Char :=
  if !(stripBase l).isEmpty && (stripBase l).any (fun x => x != '/') then
    ((stripBase l).reverse.dropWhile (fun x => x == '/')).reverse
  else
    stripBase l

/-- `posixpath.dirname`. -/
def dirname (p : String) : String :=
  String.mk (dirnameAux p.data)

/-- `posixpath.join` restricted to two arguments: an absolute second
component replaces the first; otherwise the parts are glued with a slash
unless the first part is empty or already ends in a slash. -/
def joinPath (a b : String) : String :=
  if isAbs b then b
  else if a.data.isEmpty || a.data.getLast? == some '/' then a ++ b
  else a ++ "/" ++ b

/-- Split a character list on slashes, like Python `str.split("/")`. -/
def splitSlash : List Char → List (List Char)
  | [] => [[]]
  | c :: rest =>
    let r := splitSlash rest
    if c = '/' then [] :: r
    else
      match r with
      | [] => [[c]]
      | h :: t => (c :: h) :: t

/-- The component loop of `posixpath.normpath`: empty and `.` components
are dropped, `..` pops the previous real component unless the path is
relative and nothing precedes it (or the previous component is itself a
surviving `..`). The accumulator holds the kept components in reverse. -/
def normComps (slashes : Nat) : List (List Char) → List (List Char) → List (List Char)
  | [], acc => acc.reverse
  | comp :: rest, acc =>
    if comp = [] ∨ comp = ['.'] then
      normComps slashes rest acc
    else if comp ≠ ['.', '.'] ∨ (slashes = 0 ∧ acc = []) ∨ acc.head? = some ['.', '.'] then
      normComps slashes rest (comp :: acc)
    else
      normComps slashes rest acc.tail

/-- Rebuild a path from components, interleaving single slashes. -/
def joinComps : List (List Char) → List Char
  | [] => []
  | [c] => c
  | c :: rest => c ++ '/' :: joinComps rest

/-- `posixpath.normpath`: collapse duplicate slashes and resolve `.` and
`..` components lexically; an empty path normalises to `.`, and one or two
leading slashes are preserved (three or more collapse to one). -/
def normpath (p : String) : String :=
  if p.data.isEmpty then "."
  else
    let slashes : Nat :=
      match p.data with
      | '/' :: '/' :: '/' :: _ => 1
      | '/' :: '/' :: _ => 2
      | '/' :: _ => 1
      | _ => 0
    let comps := normComps slashes (splitSlash p.data) []
    let out := List.replicate slashes '/' ++ joinComps comps
    if out.isEmpty then "." else String.mk out

/-- `posixpath.abspath`: a relative path is first joined onto the working
directory (`os.getcwd()`), then the result is normalised. -/
def abspath (cwd p : String) : String :=
  if isAbs p then normpath p else normpath (joinPath cwd p)

/-- A Python value as it occurs inside the heterogeneous
`html_theme_options` dictionary: strings, integers, lists and (ordered)
string-keyed dictionaries. -/
inductive PyVal where
  | vstr : String → PyVal
  | vint : Int → PyVal
  | vbool : Bool → PyVal
  | vlist : List PyVal → PyVal
  | vdict : List (String × PyVal) → PyVal
deriving Repr

/-- Ordered-dictionary lookup (first binding of the key wins; the literal
dictionaries in `conf.py` have no duplicate keys). -/
def lookup {α : Type} : List (String × α) → String → Option α
  | [], _ => none
  | (k, v) :: rest, key => if k = key then some v else lookup rest key

/-- The top-level names assigned by `source/conf.py`, with the value each
assignment leaves bound after module evaluation. -/
structure Config where
  project : String
  copyright : String
  author : String
  release : String
  extensions : List String
  breathe_projects : List (String × String)
  breathe_default_project : String
  breathe_default_members : List String
  breathe_show_include : Bool
  templates_path : List String
  exclude_patterns : List String
  source_suffix : List (String × String)
  myst_enable_extensions : List String
  myst_heading_anchors : Nat
  copybutton_prompt_text : String
  copybutton_prompt_is_regexp : Bool
  copybutton_line_continuation_character : String
  copybutton_here_doc_delimiter : String
  copybutton_selector : String
  autodoc_default_options : List (String × Bool)
  html_theme : String
  html_static_path : List String
  html_theme_options : List (String × PyVal)
  html_sidebars : List (String × List String)
deriving Repr

/-- Evaluation of the module `source/conf.py`: every top-level statement is
an assignment of a literal, except `breathe_projects`, whose single value
is `os.path.abspath(os.path.join(os.path.dirname(__file__),
"../doxygen/xml"))`. The two ambient inputs the module can observe are
`__file__` and the working directory read by `os.path.abspath`. -/
def evalConf (file cwd : String) : Config where
  project := "genogrove"
  copyright := "2026, Richard. A. Schaefer"
  author := "Richard. A. Schaefer"
  release := "0.14.0"
  extensions := ["myst_parser", "breathe", "sphinx.ext.autodoc",
    "sphinx.ext.napoleon", "sphinx.ext.viewcode", "sphinx_copybutton",
    "sphinx_design"]
  breathe_projects :=
    [("genogrove", abspath cwd (joinPath (dirname file) "../doxygen/xml"))]
  breathe_default_project := "genogrove"
  breathe_default_members := ["members", "undoc-members"]
  breathe_show_include := false
  templates_path := ["_templates"]
  exclude_patterns := []
  source_suffix := [(".rst", "restructuredtext"), (".md", "markdown")]
  myst_enable_extensions := ["colon_fence", "deflist", "fieldlist",
    "html_image", "linkify", "replacements", "smartquotes",
    "strikethrough", "substitution", "tasklist"]
  myst_heading_anchors := 3
  copybutton_prompt_text :=
    ">>> |\\.\\.\\. |\\$ |In \\[\\d*\\]: | \x7b2,5\x7d\\.\\.\\.: | \x7b5,8\x7d: "
  copybutton_prompt_is_regexp := true
  copybutton_line_continuation_character := "\\"
  copybutton_here_doc_delimiter := "EOT"
  copybutton_selector := "div.highlight pre"
  autodoc_default_options :=
    [("members", true), ("undoc-members", true), ("show-inheritance", true)]
  html_theme := "pydata_sphinx_theme"
  html_static_path := ["_static"]
  html_theme_options :=
    [("github_url", PyVal.vstr "https://github.com/genogrove/genogrove"),
     ("navbar_align", PyVal.vstr "left"),
     ("navbar_start", PyVal.vlist [PyVal.vstr "navbar-logo"]),
     ("navbar_center", PyVal.vlist [PyVal.vstr "navbar-nav"]),
     ("navbar_end", PyVal.vlist [PyVal.vstr "navbar-icon-links"]),
     ("navbar_persistent", PyVal.vlist [PyVal.vstr "search-button"]),
     ("show_toc_level", PyVal.vint 3),
     ("navigation_depth", PyVal.vint 4),
     ("icon_links", PyVal.vlist
       [PyVal.vdict
         [("name", PyVal.vstr "GitHub"),
          ("url", PyVal.vstr "https://github.com/genogrove/genogrove"),
          ("icon", PyVal.vstr "fab fa-github-square"),
          ("type", PyVal.vstr "fontawesome")]])]
  html_sidebars := [("**", ["sidebar-nav-bs"])]

/-- The sequence stored under the "icon_links" key of the theme options
(empty if the key is missing or not bound to a list). -/
def iconLinksOf (c : Config) : List PyVal :=
  match lookup c.html_theme_options "icon_links" with
  | some (PyVal.vlist l) => l
  | _ => []

/-- Extract the string stored under key `k` of a dictionary value. -/
def dictStr (v : PyVal) (k : String) : Option String :=
  match v with
  | PyVal.vdict d =>
    match lookup d k with
    | some (PyVal.vstr s) => some s
    | _ => none
  | _ => none

/-- An icon-link entry is a dictionary providing string fields
"name", "url", "icon" and "type". -/
def iconLinkComplete (v : PyVal) : Bool :=
  (dictStr v "name").isSome && (dictStr v "url").isSome &&
    (dictStr v "icon").isSome && (dictStr v "type").isSome

/-- The module's namespace viewed as an ordered name-to-value dictionary,
one binding per top-level assignment of `source/conf.py`, in source order
(the `breathe_default_members` tuple is rendered as a list value). -/
def asDict (c : Config) : List (String × PyVal) :=
  [("project", PyVal.vstr c.project),
   ("copyright", PyVal.vstr c.copyright),
   ("author", PyVal.vstr c.author),
   ("release", PyVal.vstr c.release),
   ("extensions", PyVal.vlist (c.extensions.map PyVal.vstr)),
   ("breathe_projects",
     PyVal.vdict (c.breathe_projects.map (fun kv => (kv.1, PyVal.vstr kv.2)))),
   ("breathe_default_project", PyVal.vstr c.breathe_default_project),
   ("breathe_default_members",
     PyVal.vlist (c.breathe_default_members.map PyVal.vstr)),
   ("breathe_show_include", PyVal.vbool c.breathe_show_include),
   ("templates_path", PyVal.vlist (c.templates_path.map PyVal.vstr)),
   ("exclude_patterns", PyVal.vlist (c.exclude_patterns.map PyVal.vstr)),
   ("source_suffix",
     PyVal.vdict (c.source_suffix.map (fun kv => (kv.1, PyVal.vstr kv.2)))),
   ("myst_enable_extensions",
     PyVal.vlist (c.myst_enable_extensions.map PyVal.vstr)),
   ("myst_heading_anchors", PyVal.vint c.myst_heading_anchors),
   ("copybutton_prompt_text", PyVal.vstr c.copybutton_prompt_text),
   ("copybutton_prompt_is_regexp", PyVal.vbool c.copybutton_prompt_is_regexp),
   ("copybutton_line_continuation_character",
     PyVal.vstr c.copybutton_line_continuation_character),
   ("copybutton_here_doc_delimiter", PyVal.vstr c.copybutton_here_doc_delimiter),
   ("copybutton_selector", PyVal.vstr c.copybutton_selector),
   ("autodoc_default_options",
     PyVal.vdict (c.autodoc_default_options.map (fun kv => (kv.1, PyVal.vbool kv.2)))),
   ("html_theme", PyVal.vstr c.html_theme),
   ("html_static_path", PyVal.vlist (c.html_static_path.map PyVal.vstr)),
   ("html_theme_options", PyVal.vdict c.html_theme_options),
   ("html_sidebars",
     PyVal.vdict (c.html_sidebars.map
       (fun kv => (kv.1, PyVal.vlist (kv.2.map PyVal.vstr)))))]

/-- The recognized top-level configuration names listed by the external
configuration contract. -/
def recognizedNames : List String :=
  ["project", "copyright", "author", "release", "extensions", "html_theme",
   "html_theme_options", "breathe_projects", "breathe_default_project",
   "myst_enable_extensions", "autodoc_default_options",
   "copybutton_prompt_text", "copybutton_prompt_is_regexp",
   "copybutton_line_continuation_character", "copybutton_here_doc_delimiter",
   "copybutton_selector", "source_suffix"]

/-- The keys expected of the theme options mapping. -/
def expectedThemeKeys : List String :=
  ["github_url", "navbar_align", "navbar_start", "navbar_center",
   "navbar_end", "navbar_persistent", "show_toc_level", "navigation_depth",
   "icon_links"]

/-- Agreement of two evaluation results on every top-level value other
than `breathe_projects`. -/
def agreesExceptBreathe (c c' : Config) : Prop :=
  c.project = c'.project ∧
  c.copyright = c'.copyright ∧
  c.author = c'.author ∧
  c.release = c'.release ∧
  c.extensions = c'.extensions ∧
  c.breathe_default_project = c'.breathe_default_project ∧
  c.breathe_default_members = c'.breathe_default_members ∧
  c.breathe_show_include = c'.breathe_show_include ∧
  c.templates_path = c'.templates_path ∧
  c.exclude_patterns = c'.exclude_patterns ∧
  c.source_suffix = c'.source_suffix ∧
  c.myst_enable_extensions = c'.myst_enable_extensions ∧
  c.myst_heading_anchors = c'.myst_heading_anchors ∧
  c.copybutton_prompt_text = c'.copybutton_prompt_text ∧
  c.copybutton_prompt_is_regexp = c'.copybutton_prompt_is_regexp ∧
  c.copybutton_line_continuation_character = c'.copybutton_line_continuation_character ∧
  c.copybutton_here_doc_delimiter = c'.copybutton_here_doc_delimiter ∧
  c.copybutton_selector = c'.copybutton_selector ∧
  c.autodoc_default_options = c'.autodoc_default_options ∧
  c.html_theme = c'.html_theme ∧
  c.html_static_path = c'.html_static_path ∧
  c.html_theme_options = c'.html_theme_options ∧
  c.html_sidebars = c'.html_sidebars

/-- Modelled from the spec: an entry of the repository's file inventory
(a file path, whether it is a Sphinx configuration snapshot, and the
project the snapshot configures). -/
structure RepoFile where
  path : String
  isSphinxConf : Bool
  projectName : String

/-- Modelled from the spec: the repository "consists exclusively of Sphinx
documentation-builder configuration files (`conf.py`, two
versions/snapshots) for a project named genogrove". Only one snapshot
(`source/conf.py`, embedded above as `evalConf`) is among the provided
source files; the existence of the second snapshot is taken from the
spec's words. -/
def repoFiles : List RepoFile :=
  [⟨"source/conf.py", true, "genogrove"⟩,
   ⟨"conf.py", true, "genogrove"⟩]

end GenogroveConf

-- quick sanity checks of the path primitives against CPython behaviour
example : GenogroveConf.dirname "/docs/source/conf.py" = "/docs/source" := by decide
example : GenogroveConf.dirname "conf.py" = "" := by decide
example : GenogroveConf.dirname "/conf.py" = "/" := by decide
example : GenogroveConf.joinPath "/docs/source" "../doxygen/xml" = "/docs/source/../doxygen/xml" := by decide
example : GenogroveConf.joinPath "" "../doxygen/xml" = "../doxygen/xml" := by decide
example : GenogroveConf.normpath "/docs/source/../doxygen/xml" = "/docs/doxygen/xml" := by decide
example : GenogroveConf.normpath "" = "." := by decide
example : GenogroveConf.normpath "//a/b" = "//a/b" := by decide
example : GenogroveConf.normpath "///a/b" = "/a/b" := by decide
example : GenogroveConf.normpath "../doxygen/xml" = "../doxygen/xml" := by decide
example : GenogroveConf.abspath "/a/x" "../doxygen/xml" = "/a/doxygen/xml" := by decide
example : GenogroveConf.abspath "/b/x" "../doxygen/xml" = "/b/doxygen/xml" := by decide
example : GenogroveConf.abspath "/cwd" "/docs/source/../doxygen/xml" = "/docs/doxygen/xml" := by decide

namespace GenogroveConf

theorem strData_append (a b : String) : (a ++ b).data = a.data ++ b.data := by
  cases a
  cases b
  rfl

theorem exists_of_isAbs {p : String} (h : isAbs p = true) :
    ∃ t, p.data = '/' :: t := by
  unfold isAbs at h
  cases hp : p.data with
  | nil => rw [hp] at h; simp at h
  | cons c t =>
    rw [hp] at h
    simp only [List.head?_cons, beq_iff_eq, Option.some.injEq] at h
    exact ⟨t, by rw [h]⟩

theorem stripBase_cons_slash (t : List Char) :
    ∃ m, stripBase ('/' :: t) = '/' :: m := by
  unfold stripBase
  rw [List.reverse_cons, List.dropWhile_append]
  by_cases hd : ((t.reverse.dropWhile fun x => x != '/').isEmpty) = true
  · exact ⟨[], by rw [if_pos hd]; rfl⟩
  · exact ⟨(t.reverse.dropWhile fun x => x != '/').reverse,
      by rw [if_neg hd, List.reverse_append]; rfl⟩

theorem dirnameAux_cons_slash (t : List Char) :
    (dirnameAux ('/' :: t)).head? = some '/' := by
  obtain ⟨m, hm⟩ := stripBase_cons_slash t
  unfold dirnameAux
  rw [hm]
  by_cases hany : (('/' :: m).any fun x => x != '/') = true
  · rw [if_pos (by simp only [hany, List.isEmpty_cons, Bool.not_false, Bool.true_and])]
    simp only [List.any_cons, bne_self_eq_false, Bool.false_or] at hany
    rw [List.reverse_cons, List.dropWhile_append]
    have hm' : ¬ ((m.reverse.dropWhile fun x => x == '/').isEmpty = true) := by
      intro hemp
      rw [List.isEmpty_iff, List.dropWhile_eq_nil_iff] at hemp
      rw [List.any_eq_true] at hany
      rcases hany with ⟨x, hx, hpx⟩
      have hx' : x = '/' := by
        rw [← beq_iff_eq]
        exact hemp x (List.mem_reverse.mpr hx)
      rw [hx'] at hpx
      simp at hpx
    rw [if_neg hm', List.reverse_append]
    rfl
  · rw [if_neg ?_]
    · rfl
    · intro hc
      rw [Bool.and_eq_true] at hc
      exact hany hc.2

theorem dirname_isAbs {p : String} (h : isAbs p = true) :
    isAbs (dirname p) = true := by
  obtain ⟨t, ht⟩ := exists_of_isAbs h
  show ((dirname p).data.head? == some '/') = true
  unfold dirname
  rw [ht]
  show ((dirnameAux ('/' :: t)).head? == some '/') = true
  rw [dirnameAux_cons_slash]
  rfl

theorem isAbs_append_left {a : String} (b : String) (h : isAbs a = true) :
    isAbs (a ++ b) = true := by
  obtain ⟨t, ht⟩ := exists_of_isAbs h
  show ((a ++ b).data.head? == some '/') = true
  rw [strData_append, ht]
  rfl

theorem joinPath_isAbs {a : String} (b : String) (h : isAbs a = true) :
    isAbs (joinPath a b) = true := by
  unfold joinPath
  by_cases hb : isAbs b = true
  · rw [if_pos hb]
    exact hb
  · rw [if_neg hb]
    by_cases hc : (a.data.isEmpty || a.data.getLast? == some '/') = true
    · rw [if_pos hc]
      exact isAbs_append_left b h
    · rw [if_neg hc]
      exact isAbs_append_left b (isAbs_append_left "/" h)

theorem abspath_of_isAbs (cwd : String) {p : String} (h : isAbs p = true) :
    abspath cwd p = normpath p := by
  unfold abspath
  rw [if_pos h]

theorem evalConf_cwd_indep {file : String} (cwd cwd' : String)
    (h : isAbs file = true) : evalConf file cwd = evalConf file cwd' := by
  have habs := joinPath_isAbs "../doxygen/xml" (dirname_isAbs h)
  unfold evalConf
  rw [abspath_of_isAbs cwd habs, abspath_of_isAbs cwd' habs]

end GenogroveConf

namespace GenogroveConf

/-- Claim C1, counterexample to the claim as stated: with a relative
`__file__` the value of `breathe_projects` also depends on the working
directory consulted by `os.path.abspath`, so it is not computed from the
configuration file's own location alone. -/
theorem breathe_projects_cwd_dependent :
    (evalConf "source/conf.py" "/home/u1").breathe_projects ≠
      (evalConf "source/conf.py" "/home/u2").breathe_projects := by
  decide

/-- Claim C1 (amended): after module evaluation `breathe_projects` is a
mapping with exactly one entry whose key is "genogrove" and whose value is
the path expression `abspath(join(dirname(__file__), "../doxygen/xml"))`;
provided `__file__` is an absolute path, that value is the normalised join
of the configuration file's directory with "../doxygen/xml" and depends on
no input other than the configuration file's own location. -/
theorem breathe_projects_abs_file_spec (file cwd : String)
    (h : isAbs file = true) :
    (evalConf file cwd).breathe_projects =
      [("genogrove", normpath (joinPath (dirname file) "../doxygen/xml"))] ∧
    ∀ cwd', (evalConf file cwd).breathe_projects =
      (evalConf file cwd').breathe_projects := by
  have habs := joinPath_isAbs "../doxygen/xml" (dirname_isAbs h)
  refine ⟨?_, ?_⟩
  · have h1 : (evalConf file cwd).breathe_projects =
        [("genogrove", abspath cwd (joinPath (dirname file) "../doxygen/xml"))] := rfl
    rw [h1, abspath_of_isAbs cwd habs]
  · intro cwd'
    have h1 : (evalConf file cwd).breathe_projects =
        [("genogrove", abspath cwd (joinPath (dirname file) "../doxygen/xml"))] := rfl
    have h2 : (evalConf file cwd').breathe_projects =
        [("genogrove", abspath cwd' (joinPath (dirname file) "../doxygen/xml"))] := rfl
    rw [h1, h2, abspath_of_isAbs cwd habs, abspath_of_isAbs cwd' habs]

/-- Witness for the amended C1 theorem at a concrete absolute location. -/
theorem breathe_projects_abs_file_spec_witness :
    isAbs "/docs/source/conf.py" = true ∧
    (evalConf "/docs/source/conf.py" "/elsewhere").breathe_projects =
      [("genogrove", "/docs/doxygen/xml")] := by
  refine ⟨by decide, ?_⟩
  rw [(breathe_projects_abs_file_spec "/docs/source/conf.py" "/elsewhere"
    (by decide)).1]
  decide

/-- Claim C2: after module evaluation, `extensions` is the non-empty
seven-element list of extension identifiers, in exactly the source's
order. -/
theorem extensions_value (file cwd : String) :
    (evalConf file cwd).extensions =
      ["myst_parser", "breathe", "sphinx.ext.autodoc", "sphinx.ext.napoleon",
       "sphinx.ext.viewcode", "sphinx_copybutton", "sphinx_design"] ∧
    (evalConf file cwd).extensions ≠ [] ∧
    (evalConf file cwd).extensions.length = 7 :=
  ⟨rfl, fun hcon => List.noConfusion hcon, rfl⟩

/-- Claim C3: the metadata variables hold the string constants
`project = "genogrove"`, `copyright = "2026, Richard. A. Schaefer"`,
`author = "Richard. A. Schaefer"`, `release = "0.14.0"`; each is assigned
once and never mutated, so the values are identical across all
evaluations. -/
theorem project_metadata_value (file cwd : String) :
    (evalConf file cwd).project = "genogrove" ∧
    (evalConf file cwd).copyright = "2026, Richard. A. Schaefer" ∧
    (evalConf file cwd).author = "Richard. A. Schaefer" ∧
    (evalConf file cwd).release = "0.14.0" ∧
    ∀ file' cwd',
      (evalConf file cwd).project = (evalConf file' cwd').project ∧
      (evalConf file cwd).copyright = (evalConf file' cwd').copyright ∧
      (evalConf file cwd).author = (evalConf file' cwd').author ∧
      (evalConf file cwd).release = (evalConf file' cwd').release :=
  ⟨rfl, rfl, rfl, rfl, fun _ _ => ⟨rfl, rfl, rfl, rfl⟩⟩

/-- Claim C4: every recognized top-level configuration name is defined
after module evaluation, and the theme options mapping contains all the
expected keys. -/
theorem config_names_and_theme_keys (file cwd : String) :
    (recognizedNames.all
      (fun n => (lookup (asDict (evalConf file cwd)) n).isSome)) = true ∧
    (expectedThemeKeys.all
      (fun k => (lookup (evalConf file cwd).html_theme_options k).isSome)) = true :=
  ⟨rfl, rfl⟩

/-- Claim C5: every element of the "icon_links" sequence of the theme
options is a dictionary providing the four string fields "name", "url",
"icon" and "type". -/
theorem icon_links_fields (file cwd : String) :
    ∀ v ∈ iconLinksOf (evalConf file cwd), iconLinkComplete v = true := by
  intro v hv
  have hl : iconLinksOf (evalConf file cwd) =
      [PyVal.vdict
        [("name", PyVal.vstr "GitHub"),
         ("url", PyVal.vstr "https://github.com/genogrove/genogrove"),
         ("icon", PyVal.vstr "fab fa-github-square"),
         ("type", PyVal.vstr "fontawesome")]] := rfl
  rw [hl] at hv
  cases hv with
  | head => rfl
  | tail _ hv' => cases hv'

/-- Witness for the C5 theorem at the single icon-link entry. -/
theorem icon_links_fields_witness :
    iconLinkComplete (PyVal.vdict
      [("name", PyVal.vstr "GitHub"),
       ("url", PyVal.vstr "https://github.com/genogrove/genogrove"),
       ("icon", PyVal.vstr "fab fa-github-square"),
       ("type", PyVal.vstr "fontawesome")]) = true :=
  icon_links_fields "/docs/source/conf.py" "/" _ (List.Mem.head _)

/-- Claim C6: module evaluation is total for every location of the
configuration file: it always produces the full configuration record, every
value other than `breathe_projects` is a fixed literal (identical across
all evaluations, so no branching or error-detecting logic contributes to
it), and the only non-literal computation is the single path expression
defining `breathe_projects`. -/
theorem module_eval_total_one_path_expr (file cwd file' cwd' : String) :
    (evalConf file cwd).breathe_projects =
      [("genogrove", abspath cwd (joinPath (dirname file) "../doxygen/xml"))] ∧
    agreesExceptBreathe (evalConf file cwd) (evalConf file' cwd') :=
  ⟨rfl, rfl, rfl, rfl, rfl, rfl, rfl, rfl, rfl, rfl, rfl, rfl, rfl, rfl,
   rfl, rfl, rfl, rfl, rfl, rfl, rfl, rfl, rfl, rfl⟩

/-- Claim C7: the repository consists of exactly two configuration source
files, each a Sphinx configuration snapshot for the project named
"genogrove" (the second snapshot is modelled from the spec, as only
`source/conf.py` is among the provided sources). -/
theorem repo_two_conf_snapshots :
    repoFiles.length = 2 ∧
    ∀ f ∈ repoFiles, f.isSphinxConf = true ∧
      f.projectName = (evalConf "conf.py" "/").project := by
  refine ⟨rfl, ?_⟩
  intro f hf
  cases hf with
  | head => exact ⟨rfl, rfl⟩
  | tail _ hf' =>
    cases hf' with
    | head => exact ⟨rfl, rfl⟩
    | tail _ hf'' => cases hf''

/-- Witness for the C7 theorem at the provided snapshot. -/
theorem repo_two_conf_snapshots_witness :
    (RepoFile.mk "source/conf.py" true "genogrove").isSphinxConf = true ∧
    (RepoFile.mk "source/conf.py" true "genogrove").projectName =
      (evalConf "conf.py" "/").project :=
  repo_two_conf_snapshots.2 (RepoFile.mk "source/conf.py" true "genogrove")
    (List.Mem.head _)

/-- Claim C8: the value of `breathe_default_project` is a key of the
`breathe_projects` mapping, so the default Breathe project resolves to a
declared project path. -/
theorem default_breathe_project_declared (file cwd : String) :
    (lookup (evalConf file cwd).breathe_projects
      (evalConf file cwd).breathe_default_project).isSome = true :=
  rfl

/-- Claim C9: the GitHub URL is declared consistently: the theme option
"github_url" and the "url" field of the icon link named "GitHub" are both
"https://github.com/genogrove/genogrove". -/
theorem github_url_consistent (file cwd : String) :
    lookup (evalConf file cwd).html_theme_options "github_url" =
      some (PyVal.vstr "https://github.com/genogrove/genogrove") ∧
    ((iconLinksOf (evalConf file cwd)).find?
        (fun v => dictStr v "name" == some "GitHub")).bind
      (fun v => dictStr v "url") =
      some "https://github.com/genogrove/genogrove" :=
  ⟨rfl, rfl⟩

/-- Claim C10, counterexample to the claim as stated: two evaluations with
the same (relative) `__file__` but different working directories disagree
on `breathe_projects`, so evaluation does not depend on `__file__` alone. -/
theorem eval_not_determined_by_file_alone :
    (evalConf "conf.py" "/home/alice/build").breathe_projects ≠
      (evalConf "conf.py" "/home/bob/build").breathe_projects := by
  decide

/-- Claim C10 (amended): module evaluation is a deterministic function of
`__file__` and the working directory; every value other than
`breathe_projects` is a fixed literal identical across all evaluations;
and when `__file__` is absolute, evaluations with the same `__file__` are
identical regardless of the working directory. -/
theorem eval_deterministic_amended (file cwd file' cwd' : String) :
    (file = file' → cwd = cwd' → evalConf file cwd = evalConf file' cwd') ∧
    agreesExceptBreathe (evalConf file cwd) (evalConf file' cwd') ∧
    (isAbs file = true → file = file' → evalConf file cwd = evalConf file' cwd') := by
  refine ⟨?_, ?_, ?_⟩
  · rintro rfl rfl
    rfl
  · exact ⟨rfl, rfl, rfl, rfl, rfl, rfl, rfl, rfl, rfl, rfl, rfl, rfl, rfl,
      rfl, rfl, rfl, rfl, rfl, rfl, rfl, rfl, rfl, rfl⟩
  · rintro habs rfl
    exact evalConf_cwd_indep cwd cwd' habs

/-- Witness for the amended C10 theorem at a concrete absolute location. -/
theorem eval_deterministic_amended_witness :
    evalConf "/docs/source/conf.py" "/a" = evalConf "/docs/source/conf.py" "/b" :=
  (eval_deterministic_amended "/docs/source/conf.py" "/a"
    "/docs/source/conf.py" "/b").2.2 (by decide) rfl

end GenogroveConf
